import Mathlib

/-!
Shallow embedding of the gobus seat-inventory / booking-lifecycle subsystem.

Sources embedded:
  * the Bus model (schema validators, the save middleware, `bookSeats`,
    `releaseSeats`),
  * the Booking model (`canCancel` and `eligibleRefundAmount` virtuals,
    `cancelBooking`, `confirmBooking`, `checkSeatAvailability`),
  * the booking controller (`createBooking`, `confirmBooking`,
    `cancelBooking`).

Modelling conventions:
  * Timestamps are integers counting milliseconds, as JavaScript `Date`
    arithmetic does.  `hoursUntilTravel = diff / 3600000 > 2` in IEEE doubles
    agrees with the exact integer comparison `diff > 7200000` for every
    integer millisecond difference of realistic size (the quotient is more
    than 1e-7 away from the boundary while doubles near 2 or 24 are spaced
    about 1e-15 apart), so the comparisons are embedded on integers.
  * `Math.floor(totalAmount * 0.9)` and `Math.floor(totalAmount * 0.5)` are
    embedded as floor divisions `(9 * t).fdiv 10` and `t.fdiv 2` on integer
    amounts; for amounts below 2^45 the double rounding of `t * 0.9` never
    crosses an integer boundary, so the floors coincide.
  * `setHours(0,0,0,0)` (local midnight) is abstracted to flooring a
    timestamp to a multiple of a day; weekday names are abstracted to the
    weekday index of that floored day.  Document identifiers are naturals.
  * Mongoose persistence: a document save runs the schema middleware and
    validators and either persists the transformed document or rejects it;
    fields of the schemas that the subsystem never reads (busNumber, driver,
    amenities, contact info, payment method, ...) are omitted.
  * The HTTP controllers are embedded as state transformers on a database
    value holding the bus and booking collections; authentication and
    role checks are outside the subsystem and are not modelled.
-/

namespace GoBus

/-- Status of a bus record: `status` enum of the bus schema. -/
inductive BusStatus where
  | active
  | inactive
  | maintenance
deriving DecidableEq, Repr

/-- Lifecycle status of a booking: `status` enum of the booking schema. -/
inductive BookingStatus where
  | pending
  | confirmed
  | cancelled
  | completed
deriving DecidableEq, Repr

/-- Payment status of a booking: `paymentStatus` enum of the booking schema. -/
inductive PaymentStatus where
  | pending
  | paid
  | refunded
  | failed
deriving DecidableEq, Repr

/-- Passenger entry of `passengerDetails` (gender omitted, never read). -/
structure Passenger where
  name : String
  age : Int
  seatNumber : String
deriving DecidableEq, Repr

/-- Bus record: the seat-ledger owner.  `operatingDays` holds weekday
indices standing for the weekday names of the source. -/
structure Bus where
  id : Nat
  capacity : Int
  availableSeats : Int
  fare : Int
  status : BusStatus
  operatingDays : List Int
deriving DecidableEq, Repr

/-- Milliseconds in an hour. -/
def msPerHour : Int := 3600000

/-- Milliseconds in a day. -/
def msPerDay : Int := 86400000

/-- Floor a timestamp to the start of its calendar day, the embedding of
`new Date(t).setHours(0, 0, 0, 0)`. -/
def dayStart (t : Int) : Int := msPerDay * (t / msPerDay)

/-- Weekday index of a timestamp, the embedding of
`toLocaleDateString('en-US', { weekday: 'long' })` (0 stands for the weekday
of the epoch). -/
def weekdayOf (t : Int) : Int := (t / msPerDay) % 7

/-- Schema validators of the bus schema that constrain the fields modelled
here: `availableSeats` min 0, `capacity` min 1 max 100, `fare` min 0.
Mongoose runs them on every save. -/
def busValid (b : Bus) : Prop :=
  0 ≤ b.availableSeats ∧ 1 ≤ b.capacity ∧ b.capacity ≤ 100 ∧ 0 ≤ b.fare

instance (b : Bus) : Decidable (busValid b) := by
  unfold busValid; infer_instance

/-- The `pre('save')` middleware of the bus schema: a new bus with falsy
`availableSeats` (JavaScript `!this.availableSeats`, true at 0) gets
`availableSeats = capacity`, and `availableSeats` above `capacity` is
clamped down to `capacity`. -/
def busPreSave (isNew : Bool) (b : Bus) : Bus :=
  let b1 := if isNew ∧ b.availableSeats = 0 then
    { b with availableSeats := b.capacity } else b
  if b1.availableSeats > b1.capacity then
    { b1 with availableSeats := b1.capacity } else b1

/-- Saving a bus document: run the middleware, then the validators; the
save persists the transformed document or rejects. -/
def busSave (isNew : Bool) (b : Bus) : Option Bus :=
  let b1 := busPreSave isNew b
  if busValid b1 then some b1 else none

/-- Instance method `bookSeats` of the bus model: decrement and save when
enough seats are available, otherwise throw without touching the ledger. -/
def bookSeats (b : Bus) (seatCount : Int) : Except String Bus :=
  if b.availableSeats ≥ seatCount then
    match busSave false { b with availableSeats := b.availableSeats - seatCount } with
    | some b1 => .ok b1
    | none => .error "ValidationError"
  else .error "Not enough available seats"

/-- Instance method `releaseSeats` of the bus model: add the count, clamp at
capacity, save. -/
def releaseSeats (b : Bus) (seatCount : Int) : Except String Bus :=
  match busSave false { b with availableSeats := min (b.availableSeats + seatCount) b.capacity } with
  | some b1 => .ok b1
  | none => .error "ValidationError"

/-- Virtual `canCancel` of the booking schema: status is confirmed and more
than two hours remain until travel. -/
def canCancel (status : BookingStatus) (now travelDate : Int) : Bool :=
  status == .confirmed && decide (travelDate - now > 2 * msPerHour)

/-- Virtual `eligibleRefundAmount` of the booking schema: 0 unless
`canCancel`; 90 percent floor beyond 24 hours, 50 percent floor between 2
and 24 hours. -/
def eligibleRefundAmount (status : BookingStatus) (now travelDate totalAmount : Int) : Int :=
  if ¬ canCancel status now travelDate then 0
  else if travelDate - now > 24 * msPerHour then (totalAmount * 9).fdiv 10
  else if travelDate - now > 2 * msPerHour then totalAmount.fdiv 2
  else 0

/-- Booking record (contact info and payment method omitted, never read by
the subsystem). -/
structure Booking where
  id : Nat
  userId : Nat
  busId : Nat
  passengerDetails : List Passenger
  bookingDate : Int
  travelDate : Int
  totalAmount : Int
  seatCount : Int
  status : BookingStatus
  paymentStatus : PaymentStatus
  cancellationReason : Option String
  cancellationDate : Option Int
  refundAmount : Int
deriving DecidableEq, Repr

/-- Instance method `cancelBooking` of the booking model.  The embedding
keeps the exact assignment order of the source: the status is set to
`cancelled` before the `eligibleRefundAmount` virtual is read, so that
read sees the already-mutated status.  The bus argument is the result of
`Bus.findById(this.busId)`; when it is `none` the release step is skipped.
On success the saved booking and the possibly saved bus are returned; a
`canCancel` failure throws before any mutation. -/
def cancelBookingMethod (bk : Booking) (reason : String) (now : Int) (bus : Option Bus) :
    Except String (Booking × Option Bus) :=
  if ¬ canCancel bk.status now bk.travelDate then
    .error "Booking cannot be cancelled at this time"
  else
    let bk1 : Booking := { bk with
      status := .cancelled
      cancellationReason := some reason
      cancellationDate := some now }
    let refund := eligibleRefundAmount bk1.status now bk1.travelDate bk1.totalAmount
    let bk2 : Booking := { bk1 with
      refundAmount := refund
      paymentStatus := if refund > 0 then .refunded else .paid }
    match bus with
    | some b =>
      match releaseSeats b bk2.seatCount with
      | .ok b1 => .ok (bk2, some b1)
      | .error e => .error e
    | none => .ok (bk2, none)

/-- Instance method `confirmBooking` of the booking model: unconditionally
sets the status to confirmed and the payment status to paid (the pending
check lives in the controller). -/
def confirmBookingMethod (bk : Booking) : Booking :=
  { bk with status := .confirmed, paymentStatus := .paid }

/-- Database state: the bus and booking collections. -/
structure DB where
  buses : List Bus
  bookings : List Booking
deriving DecidableEq, Repr

/-- Embedding of `Bus.findById`. -/
def findBus (db : DB) (i : Nat) : Option Bus :=
  db.buses.find? (fun b => b.id == i)

/-- Embedding of `Booking.findById`. -/
def findBooking (db : DB) (i : Nat) : Option Booking :=
  db.bookings.find? (fun b => b.id == i)

/-- Persist a saved bus document back into the collection. -/
def updateBus (db : DB) (b : Bus) : DB :=
  { db with buses := db.buses.map (fun x => if x.id == b.id then b else x) }

/-- Persist a saved booking document back into the collection. -/
def updateBooking (db : DB) (bk : Booking) : DB :=
  { db with bookings := db.bookings.map (fun x => if x.id == bk.id then bk else x) }

/-- Persistence step of `Booking.create`: append the document to the
collection.  The booking-schema validators that `create` runs first are
modelled by `bookingValid`, checked at the call site in the create
controller before this step. -/
def insertBooking (db : DB) (bk : Booking) : DB :=
  { db with bookings := db.bookings ++ [bk] }

/-- Query filter of `checkSeatAvailability`: same bus, travel date inside
the calendar-day window, status confirmed or pending. -/
def seatQueryFilter (busId : Nat) (startOfDay endOfDay : Int) (bk : Booking) : Bool :=
  bk.busId == busId && decide (startOfDay ≤ bk.travelDate) &&
    decide (bk.travelDate ≤ endOfDay) &&
    (bk.status == .confirmed || bk.status == .pending)

/-- Static method `checkSeatAvailability` of the booking model: collect the
seat numbers of the matching bookings and report true when no requested
seat is among them (the `distinct` of the source only deduplicates, which
membership ignores). -/
def checkSeatAvailability (db : DB) (busId : Nat) (travelDate : Int)
    (requestedSeats : List String) : Bool :=
  let startOfDay := dayStart travelDate
  let endOfDay := startOfDay + (msPerDay - 1)
  let bookedSeats := (db.bookings.filter (seatQueryFilter busId startOfDay endOfDay)).flatMap
    (fun bk => bk.passengerDetails.map (fun p => p.seatNumber))
  ! requestedSeats.any (fun s => bookedSeats.contains s)

/-- Payload of a create-booking request (payment method and contact info
omitted, never read by the subsystem). -/
structure CreateRequest where
  userId : Nat
  busId : Nat
  passengerDetails : List Passenger
  travelDate : Int
deriving DecidableEq, Repr

/-- Rules of the create route's express-validator chain that concern the
modelled fields: at least one passenger, each with a nonempty seat number
(`notEmpty` on `passengerDetails.*.seatNumber`). -/
def createReqValid (req : CreateRequest) : Prop :=
  req.passengerDetails ≠ [] ∧ ∀ p ∈ req.passengerDetails, p.seatNumber ≠ ""

instance (req : CreateRequest) : Decidable (createReqValid req) := by
  unfold createReqValid; infer_instance

/-- Seat labels named by the request:
`passengerDetails.map(p => p.seatNumber).filter(Boolean)`. -/
def requestedSeatsOf (req : CreateRequest) : List String :=
  (req.passengerDetails.map (fun p => p.seatNumber)).filter (fun s => s != "")

/-- Outcome of the create-booking controller. -/
inductive CreateResult where
  | validationFailed
  | busNotFound
  | busNotActive
  | pastTravelDate
  | notOperating
  | insufficientSeats (available : Int)
  | seatConflict
  | created (bookingId : Nat)
  | serverError
deriving DecidableEq, Repr

/-- Booking document assembled by the controller before `Booking.create`:
pending status, pending payment, total amount `fare * seatCount`, booking
date stamped by the booking schema's save middleware. -/
def mkBooking (req : CreateRequest) (nextId : Nat) (fare now : Int) : Booking :=
  { id := nextId, userId := req.userId, busId := req.busId,
    passengerDetails := req.passengerDetails, bookingDate := now,
    travelDate := req.travelDate,
    totalAmount := fare * (req.passengerDetails.length : Int),
    seatCount := (req.passengerDetails.length : Int),
    status := .pending, paymentStatus := .pending,
    cancellationReason := none, cancellationDate := none, refundAmount := 0 }

/-- Validators of the booking schema on the modelled fields, which
`Booking.create` runs before persisting: every passenger has a nonempty
name, an age between 1 and 120 and a nonempty (required) seat number;
`travelDate` is not before the start of the current day; `totalAmount`
min 0; `seatCount` min 1; `refundAmount` min 0.  A document failing them
is rejected wholesale and nothing is persisted. -/
def bookingValid (bk : Booking) (now : Int) : Prop :=
  (∀ p ∈ bk.passengerDetails, p.name ≠ "" ∧ 1 ≤ p.age ∧ p.age ≤ 120 ∧ p.seatNumber ≠ "") ∧
  dayStart now ≤ bk.travelDate ∧ 0 ≤ bk.totalAmount ∧ 1 ≤ bk.seatCount ∧ 0 ≤ bk.refundAmount

instance (bk : Booking) (now : Int) : Decidable (bookingValid bk now) := by
  unfold bookingValid; infer_instance

/-- Controller `createBooking`, with the checks in source order: validation,
bus lookup, active status, past travel date, operating day, seat count
against the ledger, seat-label conflicts; then `Booking.create` (its schema
validation followed by the persisting append) and `bus.bookSeats`.
`nextId` stands for the generated booking id.  When `Booking.create` itself
rejects, nothing has been persisted and the catch block answers with a
server error; when the later `bookSeats` save rejects, the catch block
answers the same way but the already persisted booking stays, which the
final error branch reproduces. -/
def createBookingOp (db : DB) (req : CreateRequest) (now : Int) (nextId : Nat) :
    CreateResult × DB :=
  if ¬ createReqValid req then (.validationFailed, db)
  else match findBus db req.busId with
  | none => (.busNotFound, db)
  | some bus =>
    if bus.status ≠ .active then (.busNotActive, db)
    else if req.travelDate < dayStart now then (.pastTravelDate, db)
    else if ¬ bus.operatingDays.contains (weekdayOf req.travelDate) then (.notOperating, db)
    else if bus.availableSeats < (req.passengerDetails.length : Int) then
      (.insufficientSeats bus.availableSeats, db)
    else if requestedSeatsOf req ≠ [] ∧
        checkSeatAvailability db req.busId req.travelDate (requestedSeatsOf req) = false then
      (.seatConflict, db)
    else
      let bk := mkBooking req nextId bus.fare now
      if ¬ bookingValid bk now then (.serverError, db)
      else
        let db1 := insertBooking db bk
        match bookSeats bus (req.passengerDetails.length : Int) with
        | .ok bus1 => (.created nextId, updateBus db1 bus1)
        | .error _ => (.serverError, db1)

/-- Outcome of the confirm-booking controller. -/
inductive ConfirmResult where
  | notFound
  | invalidStatus (current : BookingStatus)
  | confirmed
deriving DecidableEq, Repr

/-- Controller `confirmBooking`: look the booking up, reject any status
other than pending, otherwise run the model's confirm method and save. -/
def confirmBookingOp (db : DB) (i : Nat) : ConfirmResult × DB :=
  match findBooking db i with
  | none => (.notFound, db)
  | some bk =>
    if bk.status ≠ .pending then (.invalidStatus bk.status, db)
    else (.confirmed, updateBooking db (confirmBookingMethod bk))

/-- Outcome of the cancel-booking controller. -/
inductive CancelResult where
  | notFound
  | alreadyCancelled
  | completedNoCancel
  | cannotCancelNow
  | cancelled (refundAmount : Int)
deriving DecidableEq, Repr

/-- Controller `cancelBooking`: look the booking up, reject the cancelled
and completed statuses, then run the model's cancel method (which may still
throw on `canCancel`) and persist its results.  The authorization check of
the source sits between lookup and the status checks and is outside the
subsystem. -/
def cancelBookingOp (db : DB) (i : Nat) (reason : String) (now : Int) :
    CancelResult × DB :=
  match findBooking db i with
  | none => (.notFound, db)
  | some bk =>
    if bk.status = .cancelled then (.alreadyCancelled, db)
    else if bk.status = .completed then (.completedNoCancel, db)
    else match cancelBookingMethod bk reason now (findBus db bk.busId) with
    | .error _ => (.cannotCancelNow, db)
    | .ok (bk1, busOpt) =>
      let db1 := updateBooking db bk1
      let db2 := match busOpt with
        | some b => updateBus db1 b
        | none => db1
      (.cancelled bk1.refundAmount, db2)

/-- Seat-ledger invariant of the specification: available seats lie between
zero and the capacity. -/
def seatInvariant (b : Bus) : Prop :=
  0 ≤ b.availableSeats ∧ b.availableSeats ≤ b.capacity

instance (b : Bus) : Decidable (seatInvariant b) := by
  unfold seatInvariant; infer_instance

/-- Well-formed bus record: one the schema accepts, with the ledger
invariant; every bus persisted through a successful save satisfies it. -/
def busWF (b : Bus) : Prop := busValid b ∧ b.availableSeats ≤ b.capacity

instance (b : Bus) : Decidable (busWF b) := by
  unfold busWF; infer_instance

/-- Every bus of the database satisfies the seat-ledger invariant. -/
def dbInvariant (db : DB) : Prop := ∀ b ∈ db.buses, seatInvariant b

instance (db : DB) : Decidable (dbInvariant db) :=
  List.decidableBAll seatInvariant db.buses

/-- Booking record produced by a successful cancellation: the status,
reason and date are recorded, but the refund comes out as zero and the
payment status as paid, because the refund virtual is consulted only after
the status has already been set to cancelled. -/
def cancelledRecord (bk : Booking) (reason : String) (now : Int) : Booking :=
  { bk with
    status := .cancelled
    cancellationReason := some reason
    cancellationDate := some now
    refundAmount := 0
    paymentStatus := .paid }

/-- Seat labels held by an existing booking. -/
def heldSeats (bk : Booking) : List String :=
  bk.passengerDetails.map (fun p => p.seatNumber)

/-- An existing booking blocks a create request: same bus, same calendar
day, live status (pending or confirmed), and a shared seat label. -/
def blocksSeat (busId : Nat) (travelDate : Int) (seats : List String) (bk : Booking) : Prop :=
  bk.busId = busId ∧ dayStart bk.travelDate = dayStart travelDate ∧
    (bk.status = .pending ∨ bk.status = .confirmed) ∧ ∃ s ∈ seats, s ∈ heldSeats bk

instance (busId : Nat) (td : Int) (seats : List String) (bk : Booking) :
    Decidable (blocksSeat busId td seats bk) := by
  unfold blocksSeat heldSeats; infer_instance

def busW2 : Bus := ⟨21, 10, 4, 15, .active, [0, 1, 2, 3, 4, 5, 6]⟩

def dbW2 : DB := ⟨[busW2], []⟩

def reqW2 : CreateRequest := ⟨1, 21, [⟨"Ana", 28, "C1"⟩], 30 * msPerHour⟩

def busR3 : Bus := ⟨31, 10, 5, 20, .active, [0, 1, 2, 3, 4, 5, 6]⟩

def busR3b : Bus := ⟨32, 10, 2, 20, .active, [0, 1, 2, 3, 4, 5, 6]⟩

def busR4 : Bus := ⟨41, 10, 9, 20, .active, [0, 1, 2, 3, 4, 5, 6]⟩

def busC7 : Bus := ⟨71, 40, 10, 50, .active, [0, 1, 2, 3, 4, 5, 6]⟩

def bkC7 : Booking :=
  ⟨72, 1, 71, [⟨"Asha", 30, "A1"⟩, ⟨"Ben", 31, "A2"⟩], 0, 30 * msPerHour, 100, 2,
    .confirmed, .paid, none, none, 0⟩

def dbC7 : DB := ⟨[busC7], [bkC7]⟩

def busC8 : Bus := ⟨81, 10, 5, 20, .active, [0, 1, 2, 3, 4, 5, 6]⟩

def bkC8 : Booking :=
  ⟨82, 2, 81, [⟨"Old", 35, "A1"⟩], 0, 30 * msPerHour, 20, 1, .pending, .pending,
    none, none, 0⟩

def dbC8 : DB := ⟨[busC8], [bkC8]⟩

def reqC8 : CreateRequest := ⟨3, 81, [⟨"New", 25, "A1"⟩], 30 * msPerHour⟩

def busR9 : Bus := ⟨91, 10, 7, 20, .active, [0, 1, 2, 3, 4, 5, 6]⟩

def bkC10 : Booking :=
  ⟨101, 1, 99, [⟨"Gil", 29, "E1"⟩], 0, 30 * msPerHour, 100, 1, .confirmed, .paid,
    none, none, 0⟩

def dbC10 : DB := ⟨[], [bkC10]⟩

def bkC10w : Booking :=
  ⟨111, 1, 98, [⟨"Hana", 33, "F1"⟩], 0, 10 * msPerHour, 40, 1, .confirmed, .paid,
    none, none, 0⟩

def dbC10w : DB := ⟨[], [bkC10w]⟩

theorem busPreSave_capacity (isNew : Bool) (b : Bus) :
    (busPreSave isNew b).capacity = b.capacity := by
  dsimp only [busPreSave]
  split <;> split <;> rfl

theorem busPreSave_avail_le (isNew : Bool) (b : Bus) :
    (busPreSave isNew b).availableSeats ≤ (busPreSave isNew b).capacity := by
  dsimp only [busPreSave]
  split <;> split <;> simp_all

theorem busSave_eq_some (isNew : Bool) (b b1 : Bus) (h : busSave isNew b = some b1) :
    b1 = busPreSave isNew b ∧ busValid b1 := by
  dsimp only [busSave] at h
  split at h
  next hv => injection h with h2; exact ⟨h2.symm, h2 ▸ hv⟩
  next => cases h

theorem busSave_seatInvariant (isNew : Bool) (b b1 : Bus) (h : busSave isNew b = some b1) :
    seatInvariant b1 := by
  obtain ⟨h1, h2⟩ := busSave_eq_some isNew b b1 h
  subst h1
  exact ⟨h2.1, busPreSave_avail_le isNew b⟩

theorem busSave_busWF (isNew : Bool) (b b1 : Bus) (h : busSave isNew b = some b1) :
    busWF b1 := by
  obtain ⟨h1, h2⟩ := busSave_eq_some isNew b b1 h
  exact ⟨h2, h1 ▸ busPreSave_avail_le isNew b⟩

theorem busSave_no_clamp (b : Bus) (hv : busValid b) (hle : b.availableSeats ≤ b.capacity) :
    busSave false b = some b := by
  unfold busSave busPreSave
  have h1 : ¬ ((false : Bool) ∧ b.availableSeats = 0) := by simp
  rw [if_neg h1, if_neg (by omega : ¬ b.availableSeats > b.capacity), if_pos hv]

theorem bookSeats_ok_of (b : Bus) (c : Int) (hwf : busWF b) (hc : 0 ≤ c)
    (h : c ≤ b.availableSeats) :
    bookSeats b c = .ok { b with availableSeats := b.availableSeats - c } := by
  obtain ⟨⟨hv0, hv1, hv2, hv3⟩, hle⟩ := hwf
  have hsave : busSave false { b with availableSeats := b.availableSeats - c } =
      some { b with availableSeats := b.availableSeats - c } := by
    apply busSave_no_clamp
    · exact ⟨show (0 : Int) ≤ b.availableSeats - c by omega, hv1, hv2, hv3⟩
    · show b.availableSeats - c ≤ b.capacity
      omega
  unfold bookSeats
  rw [if_pos (show b.availableSeats ≥ c by omega), hsave]

theorem bookSeats_seatInvariant (b : Bus) (c : Int) (b1 : Bus)
    (h : bookSeats b c = .ok b1) : seatInvariant b1 := by
  unfold bookSeats at h
  split at h
  · cases hs : busSave false { b with availableSeats := b.availableSeats - c } with
    | some b2 =>
      rw [hs] at h
      cases h
      exact busSave_seatInvariant _ _ _ hs
    | none => rw [hs] at h; cases h
  · cases h

theorem releaseSeats_ok_of (b : Bus) (c : Int) (hwf : busWF b) (hc : 0 ≤ c) :
    releaseSeats b c =
      .ok { b with availableSeats := min (b.availableSeats + c) b.capacity } := by
  obtain ⟨⟨hv0, hv1, hv2, hv3⟩, hle⟩ := hwf
  have hsave : busSave false { b with availableSeats := min (b.availableSeats + c) b.capacity } =
      some { b with availableSeats := min (b.availableSeats + c) b.capacity } := by
    apply busSave_no_clamp
    · exact ⟨show (0 : Int) ≤ min (b.availableSeats + c) b.capacity by omega, hv1, hv2, hv3⟩
    · show min (b.availableSeats + c) b.capacity ≤ b.capacity
      omega
  unfold releaseSeats
  rw [hsave]

theorem releaseSeats_seatInvariant (b : Bus) (c : Int) (b1 : Bus)
    (h : releaseSeats b c = .ok b1) : seatInvariant b1 := by
  unfold releaseSeats at h
  cases hs : busSave false
      { b with availableSeats := min (b.availableSeats + c) b.capacity } with
  | some b2 =>
    rw [hs] at h
    cases h
    exact busSave_seatInvariant _ _ _ hs
  | none => rw [hs] at h; cases h

theorem dbInvariant_updateBus (db : DB) (b : Bus) (h : dbInvariant db)
    (hb : seatInvariant b) : dbInvariant (updateBus db b) := by
  intro x hx
  simp only [updateBus, List.mem_map] at hx
  obtain ⟨y, hy, hxy⟩ := hx
  split at hxy
  · exact hxy ▸ hb
  · exact hxy ▸ h y hy

theorem find?_replace (l : List Booking) (i : Nat) (bk bk1 : Booking)
    (hid : bk1.id = bk.id) (h : l.find? (fun x => x.id == i) = some bk) :
    (l.map (fun x => if x.id == bk1.id then bk1 else x)).find? (fun x => x.id == i) =
      some bk1 := by
  have hbk : bk.id = i := by simpa using List.find?_some h
  induction l with
  | nil => simp at h
  | cons a l ih =>
    simp only [List.find?_cons, List.map_cons] at h ⊢
    cases hpa : (a.id == i : Bool) with
    | true =>
      rw [hpa] at h
      injection h with h2
      subst h2
      have h3 : (a.id == bk1.id) = true := by
        simp only [beq_iff_eq] at hpa ⊢
        omega
      have h4 : (bk1.id == i) = true := by
        simp only [beq_iff_eq]
        omega
      rw [if_pos h3, h4]
    | false =>
      rw [hpa] at h
      have ha : a.id ≠ i := by simpa using hpa
      have h3 : ¬ ((a.id == bk1.id) = true) := by
        simp only [beq_iff_eq]
        omega
      have h4 : (a.id == i) = false := by simpa using ha
      rw [if_neg h3, h4]
      exact ih h

theorem findBooking_updateBooking (db : DB) (i : Nat) (bk bk1 : Booking)
    (hfind : findBooking db i = some bk) (hid : bk1.id = bk.id) :
    findBooking (updateBooking db bk1) i = some bk1 :=
  find?_replace db.bookings i bk bk1 hid hfind

theorem canCancel_confirmed (st : BookingStatus) (now td : Int)
    (h : canCancel st now td = true) : st = .confirmed := by
  unfold canCancel at h
  simp only [Bool.and_eq_true, beq_iff_eq, decide_eq_true_eq] at h
  exact h.1

theorem canCancel_cancelled (now td : Int) : canCancel .cancelled now td = false := rfl

theorem eligibleRefund_of_not_canCancel (st : BookingStatus) (now td total : Int)
    (h : canCancel st now td = false) : eligibleRefundAmount st now td total = 0 := by
  unfold eligibleRefundAmount
  rw [if_pos (by simp [h])]

theorem cancelMethod_result (bk : Booking) (r : String) (now : Int) (busOpt : Option Bus)
    (hcan : canCancel bk.status now bk.travelDate = true) :
    cancelBookingMethod bk r now busOpt =
      match busOpt with
      | none => .ok (cancelledRecord bk r now, none)
      | some b =>
        match releaseSeats b bk.seatCount with
        | .ok b1 => .ok (cancelledRecord bk r now, some b1)
        | .error e => .error e := by
  unfold cancelBookingMethod
  rw [if_neg (by simp [hcan])]
  have hz : eligibleRefundAmount BookingStatus.cancelled now bk.travelDate bk.totalAmount = 0 :=
    eligibleRefund_of_not_canCancel _ _ _ _ (canCancel_cancelled now bk.travelDate)
  dsimp only
  rw [hz]
  cases busOpt <;> norm_num [cancelledRecord]

theorem dayWindow_iff (t x : Int) :
    (dayStart t ≤ x ∧ x ≤ dayStart t + (msPerDay - 1)) ↔ dayStart x = dayStart t := by
  unfold dayStart msPerDay
  omega

theorem checkSeatAvailability_false_iff (db : DB) (busId : Nat) (td : Int)
    (seats : List String) :
    checkSeatAvailability db busId td seats = false ↔
      ∃ bk ∈ db.bookings, blocksSeat busId td seats bk := by
  unfold checkSeatAvailability
  simp only [Bool.not_eq_false', List.any_eq_true, List.elem_iff,
    List.mem_flatMap, List.mem_filter, seatQueryFilter, Bool.and_eq_true,
    decide_eq_true_eq, beq_iff_eq, Bool.or_eq_true, blocksSeat, heldSeats]
  constructor
  · rintro ⟨s, hs, bk, ⟨hbkmem, ⟨⟨hbus, hlo⟩, hhi⟩, hst⟩, hseat⟩
    refine ⟨bk, hbkmem, hbus, (dayWindow_iff td bk.travelDate).mp ⟨hlo, hhi⟩, ?_, s, hs, hseat⟩
    rcases hst with h | h
    · exact Or.inr h
    · exact Or.inl h
  · rintro ⟨bk, hbkmem, hbus, hday, hst, s, hs, hseat⟩
    obtain ⟨hlo, hhi⟩ := (dayWindow_iff td bk.travelDate).mpr hday
    refine ⟨s, hs, bk, ⟨hbkmem, ⟨⟨hbus, hlo⟩, hhi⟩, ?_⟩, hseat⟩
    rcases hst with h | h
    · exact Or.inr h
    · exact Or.inl h

theorem requestedSeats_ne_nil (req : CreateRequest) (hv : createReqValid req) :
    requestedSeatsOf req ≠ [] := by
  obtain ⟨hne, hall⟩ := hv
  cases hp : req.passengerDetails with
  | nil => exact absurd hp hne
  | cons p ps =>
    have hpmem : p ∈ req.passengerDetails := by rw [hp]; exact List.mem_cons_self p ps
    have : p.seatNumber ∈ requestedSeatsOf req := by
      unfold requestedSeatsOf
      rw [List.mem_filter]
      refine ⟨List.mem_map_of_mem _ hpmem, ?_⟩
      simpa using hall p hpmem
    intro hcon
    rw [hcon] at this
    exact absurd this (List.not_mem_nil _)

theorem cancelMethod_ok_bus (bk : Booking) (r : String) (now : Int) (busOpt : Option Bus)
    (bk1 : Booking) (b1 : Bus)
    (h : cancelBookingMethod bk r now busOpt = .ok (bk1, some b1)) : seatInvariant b1 := by
  by_cases hcan : canCancel bk.status now bk.travelDate = true
  · rw [cancelMethod_result bk r now busOpt hcan] at h
    cases busOpt with
    | none => simp at h
    | some b =>
      dsimp only at h
      cases hrel : releaseSeats b bk.seatCount with
      | ok b2 =>
        rw [hrel] at h
        injection h with h2
        have h3 : some b2 = some b1 := congrArg Prod.snd h2
        injection h3 with h4
        exact h4 ▸ releaseSeats_seatInvariant _ _ _ hrel
      | error e =>
        rw [hrel] at h
        cases h
  · unfold cancelBookingMethod at h
    rw [if_pos (by simpa using hcan)] at h
    cases h

theorem createBookingOp_dbInvariant (db : DB) (req : CreateRequest) (now : Int)
    (nextId : Nat) (h : dbInvariant db) :
    dbInvariant (createBookingOp db req now nextId).2 := by
  unfold createBookingOp
  dsimp only
  repeat' split
  all_goals try exact h
  rename_i bus1 heq
  exact dbInvariant_updateBus _ _ h (bookSeats_seatInvariant _ _ _ heq)

theorem confirmBookingOp_dbInvariant (db : DB) (i : Nat) (h : dbInvariant db) :
    dbInvariant (confirmBookingOp db i).2 := by
  unfold confirmBookingOp
  repeat' split
  all_goals exact h

theorem cancelBookingOp_dbInvariant (db : DB) (i : Nat) (r : String) (now : Int)
    (h : dbInvariant db) : dbInvariant (cancelBookingOp db i r now).2 := by
  unfold cancelBookingOp
  repeat' split
  all_goals try exact h
  rename_i bk1 busOpt bvar heq
  exact dbInvariant_updateBus _ _ h (cancelMethod_ok_bus _ _ _ _ _ _ heq)

/-- C2: the seat-ledger invariant `0 ≤ availableSeats ≤ capacity` holds
after every operation of the subsystem: after any successful bus save,
after `bookSeats` and `releaseSeats`, and across the create, confirm and
cancel controller operations on an invariant database. -/
theorem seat_ledger_invariant_preserved :
    (∀ (isNew : Bool) (b b1 : Bus), busSave isNew b = some b1 → seatInvariant b1) ∧
    (∀ (b : Bus) (c : Int) (b1 : Bus), bookSeats b c = .ok b1 → seatInvariant b1) ∧
    (∀ (b : Bus) (c : Int) (b1 : Bus), releaseSeats b c = .ok b1 → seatInvariant b1) ∧
    (∀ (db : DB) (req : CreateRequest) (now : Int) (nextId : Nat),
      dbInvariant db → dbInvariant (createBookingOp db req now nextId).2) ∧
    (∀ (db : DB) (i : Nat), dbInvariant db → dbInvariant (confirmBookingOp db i).2) ∧
    (∀ (db : DB) (i : Nat) (r : String) (now : Int),
      dbInvariant db → dbInvariant (cancelBookingOp db i r now).2) :=
  ⟨busSave_seatInvariant, bookSeats_seatInvariant, releaseSeats_seatInvariant,
   createBookingOp_dbInvariant, confirmBookingOp_dbInvariant, cancelBookingOp_dbInvariant⟩

theorem seat_ledger_invariant_preserved_witness :
    dbInvariant (createBookingOp dbW2 reqW2 0 500).2 :=
  seat_ledger_invariant_preserved.2.2.2.1 dbW2 reqW2 0 500 (by decide)

/-- C3: `bookSeats` on a schema-valid bus with a positive count decrements
`availableSeats` by exactly the count and persists when enough seats are
available, and fails with the insufficient-seats error, leaving the ledger
untouched, otherwise. -/
theorem reserve_spec (b : Bus) (c : Int) (hwf : busWF b) (hc : 1 ≤ c) :
    (c ≤ b.availableSeats →
      bookSeats b c = .ok { b with availableSeats := b.availableSeats - c }) ∧
    (b.availableSeats < c → bookSeats b c = .error "Not enough available seats") := by
  constructor
  · intro hle
    exact bookSeats_ok_of b c hwf (by omega) hle
  · intro hlt
    unfold bookSeats
    rw [if_neg (by omega)]

theorem reserve_spec_witness :
    bookSeats busR3 2 = .ok { busR3 with availableSeats := busR3.availableSeats - 2 } ∧
    bookSeats busR3b 3 = .error "Not enough available seats" :=
  ⟨(reserve_spec busR3 2 (by decide) (by decide)).1 (by decide),
   (reserve_spec busR3b 3 (by decide) (by decide)).2 (by decide)⟩

/-- C4: `releaseSeats` on a schema-valid bus with a nonnegative count
always succeeds, setting `availableSeats` to
`min (availableSeats + count) capacity`, which never exceeds the capacity
— so repeated releases cannot inflate the ledger. -/
theorem release_spec (b : Bus) (c : Int) (hwf : busWF b) (hc : 0 ≤ c) :
    releaseSeats b c =
      .ok { b with availableSeats := min (b.availableSeats + c) b.capacity } ∧
    min (b.availableSeats + c) b.capacity ≤ b.capacity :=
  ⟨releaseSeats_ok_of b c hwf hc, min_le_right _ _⟩

theorem release_spec_witness :
    releaseSeats busR4 3 =
      .ok { busR4 with availableSeats := min (busR4.availableSeats + 3) busR4.capacity } ∧
    min (busR4.availableSeats + 3) busR4.capacity ≤ busR4.capacity :=
  release_spec busR4 3 (by decide) (by decide)

/-- C5: refund policy as a pure function: `canCancel` holds exactly for a
confirmed booking more than two hours before travel (so a pending booking
is never cancellable); when `canCancel` fails the refund is zero; beyond
24 hours the refund is `floor(totalAmount * 0.9)`; between 2 and 24 hours
it is `floor(totalAmount * 0.5)`. -/
theorem refund_policy_spec (st : BookingStatus) (now td total : Int) :
    (canCancel st now td = true ↔ st = .confirmed ∧ td - now > 2 * msPerHour) ∧
    (st = .pending → canCancel st now td = false) ∧
    (canCancel st now td = false → eligibleRefundAmount st now td total = 0) ∧
    (canCancel st now td = true → td - now > 24 * msPerHour →
      eligibleRefundAmount st now td total = (total * 9).fdiv 10) ∧
    (canCancel st now td = true → td - now ≤ 24 * msPerHour →
      eligibleRefundAmount st now td total = total.fdiv 2) := by
  have hiff : canCancel st now td = true ↔ st = .confirmed ∧ td - now > 2 * msPerHour := by
    unfold canCancel
    simp [Bool.and_eq_true, beq_iff_eq, decide_eq_true_eq]
  refine ⟨hiff, ?_, eligibleRefund_of_not_canCancel st now td total, ?_, ?_⟩
  · intro hp
    cases h : canCancel st now td
    · rfl
    · have h2 := (hiff.mp h).1
      rw [hp] at h2
      cases h2
  · intro hc h24
    unfold eligibleRefundAmount
    rw [if_neg (by simp [hc]), if_pos h24]
  · intro hc h24
    have h2 := (hiff.mp hc).2
    unfold eligibleRefundAmount
    rw [if_neg (by simp [hc]), if_neg (by omega), if_pos h2]

theorem refund_policy_spec_witness :
    eligibleRefundAmount .confirmed 0 (30 * msPerHour) 100 = ((100 : Int) * 9).fdiv 10 ∧
    eligibleRefundAmount .confirmed 0 (10 * msPerHour) 101 = (101 : Int).fdiv 2 ∧
    canCancel .pending 0 (30 * msPerHour) = false ∧
    eligibleRefundAmount .completed 0 (30 * msPerHour) 100 = 0 :=
  ⟨(refund_policy_spec .confirmed 0 (30 * msPerHour) 100).2.2.2.1 (by decide) (by decide),
   (refund_policy_spec .confirmed 0 (10 * msPerHour) 101).2.2.2.2 (by decide) (by decide),
   (refund_policy_spec .pending 0 (30 * msPerHour) 0).2.1 rfl,
   (refund_policy_spec .completed 0 (30 * msPerHour) 100).2.2.1 (by decide)⟩

/-- C7: refuted on the refund step.  `cancelBooking` assigns
`this.status = 'cancelled'` before reading `this.eligibleRefundAmount`;
that virtual re-reads `canCancel`, which now sees a non-confirmed status
and yields zero.  For this confirmed booking 30 hours before travel with
total 100 the policy value is 90, yet the cancellation records refund 0
and payment status paid — while the rest of the transition (status,
ledger release of the two seats) proceeds. -/
theorem cancel_zeroes_refund_bug :
    eligibleRefundAmount bkC7.status 0 bkC7.travelDate bkC7.totalAmount = 90 ∧
    (cancelBookingOp dbC7 72 "change of plans" 0).1 = .cancelled 0 ∧
    (findBooking (cancelBookingOp dbC7 72 "change of plans" 0).2 72).map
      (fun bk => (bk.status, bk.refundAmount, bk.paymentStatus)) =
      some (.cancelled, 0, .paid) ∧
    (findBus (cancelBookingOp dbC7 72 "change of plans" 0).2 71).map Bus.availableSeats =
      some 12 := by
  refine ⟨?_, ?_, ?_, ?_⟩ <;> decide

/-- C8: when the pre-reservation checks pass and the request names seat
labels, a live (pending or confirmed) booking for the same bus on the same
calendar day holding one of the requested labels makes creation fail with
the seat-conflict answer and leaves the database unchanged; and when every
same-bus same-day holder of a requested label is cancelled or completed,
the availability check passes. -/
theorem seat_conflict_spec (db : DB) (req : CreateRequest) (now : Int) (nextId : Nat)
    (bus : Bus)
    (hv : createReqValid req)
    (h1 : findBus db req.busId = some bus)
    (h2 : bus.status = .active)
    (h3 : ¬ req.travelDate < dayStart now)
    (h4 : bus.operatingDays.contains (weekdayOf req.travelDate))
    (h5 : ¬ bus.availableSeats < (req.passengerDetails.length : Int)) :
    ((∃ bk ∈ db.bookings, blocksSeat req.busId req.travelDate (requestedSeatsOf req) bk) →
      createBookingOp db req now nextId = (.seatConflict, db)) ∧
    ((∀ bk ∈ db.bookings, bk.busId = req.busId →
        dayStart bk.travelDate = dayStart req.travelDate →
        (∃ s ∈ requestedSeatsOf req, s ∈ heldSeats bk) →
        bk.status = .cancelled ∨ bk.status = .completed) →
      checkSeatAvailability db req.busId req.travelDate (requestedSeatsOf req) = true) := by
  constructor
  · intro hex
    have hconf : checkSeatAvailability db req.busId req.travelDate (requestedSeatsOf req) =
        false :=
      (checkSeatAvailability_false_iff db req.busId req.travelDate
        (requestedSeatsOf req)).mpr hex
    unfold createBookingOp
    rw [if_neg (not_not_intro hv), h1]
    dsimp only
    rw [if_neg (by simp [h2]), if_neg h3, if_neg (not_not_intro h4), if_neg h5,
      if_pos ⟨requestedSeats_ne_nil req hv, hconf⟩]
  · intro hall
    by_contra hfalse
    have hf : checkSeatAvailability db req.busId req.travelDate (requestedSeatsOf req) =
        false := by
      cases hcsa : checkSeatAvailability db req.busId req.travelDate (requestedSeatsOf req)
      · rfl
      · exact absurd hcsa hfalse
    obtain ⟨bk, hmem, hbus, hday, hst, sx, hs, hseat⟩ :=
      (checkSeatAvailability_false_iff _ _ _ _).mp hf
    rcases hst with h6 | h6 <;>
      rcases hall bk hmem hbus hday ⟨sx, hs, hseat⟩ with h7 | h7 <;>
        rw [h6] at h7 <;> cases h7

theorem seat_conflict_spec_witness :
    createBookingOp dbC8 reqC8 0 900 = (.seatConflict, dbC8) :=
  (seat_conflict_spec dbC8 reqC8 0 900 busC8 (by decide) rfl rfl (by decide) (by decide)
    (by decide)).1 (by decide)

/-- C9: on a schema-valid bus, booking `n` seats and then releasing the
same `n` seats restores `availableSeats` to its pre-booking value. -/
theorem roundtrip_spec (b : Bus) (n : Int) (hwf : busWF b) (hn : 1 ≤ n)
    (hav : n ≤ b.availableSeats) :
    ∃ b1 b2, bookSeats b n = .ok b1 ∧ releaseSeats b1 n = .ok b2 ∧
      b2.availableSeats = b.availableSeats := by
  obtain ⟨⟨hv0, hv1, hv2, hv3⟩, hle⟩ := hwf
  refine ⟨{ b with availableSeats := b.availableSeats - n },
    { b with availableSeats := min (b.availableSeats - n + n) b.capacity },
    bookSeats_ok_of b n ⟨⟨hv0, hv1, hv2, hv3⟩, hle⟩ (by omega) hav, ?_, ?_⟩
  · exact releaseSeats_ok_of { b with availableSeats := b.availableSeats - n } n
      ⟨⟨show (0 : Int) ≤ b.availableSeats - n by omega, hv1, hv2, hv3⟩,
       show b.availableSeats - n ≤ b.capacity by omega⟩ (by omega)
  · show min (b.availableSeats - n + n) b.capacity = b.availableSeats
    omega

theorem roundtrip_spec_witness :
    ∃ b1 b2, bookSeats busR9 3 = .ok b1 ∧ releaseSeats b1 3 = .ok b2 ∧
      b2.availableSeats = busR9.availableSeats :=
  roundtrip_spec busR9 3 (by decide) (by decide) (by decide)

/-- C10 counterexample: for a cancellable booking whose bus record is
absent, cancellation completes but the recorded refund is 0, not the
policy value: here the policy on (confirmed, 30 hours out, total 100)
gives 90, so the refund and payment status are not set per the policy. -/
theorem cancel_missing_bus_policy_counterexample :
    (findBooking (cancelBookingOp dbC10 101 "no bus" 0).2 101).map
      (fun bk => (bk.refundAmount, bk.paymentStatus)) = some (0, .paid) ∧
    eligibleRefundAmount bkC10.status 0 bkC10.travelDate bkC10.totalAmount = 90 ∧
    ((0 : Int), PaymentStatus.paid) ≠ (90, PaymentStatus.refunded) := by
  refine ⟨?_, ?_, ?_⟩ <;> decide

/-- C10 (amended): for a cancellable booking whose referenced bus record no
longer exists, cancellation still completes: the booking is persisted as
cancelled with the reason and date recorded, refund 0 and payment status
paid (the refund virtual is read after the status is already cancelled),
the seat-release step is silently skipped, and the missing bus is not
reported as an error. -/
theorem cancel_missing_bus_spec (db : DB) (i : Nat) (reason : String) (now : Int)
    (bk : Booking) (hfind : findBooking db i = some bk)
    (hnobus : findBus db bk.busId = none)
    (hcan : canCancel bk.status now bk.travelDate = true) :
    cancelBookingOp db i reason now =
      (.cancelled 0, updateBooking db (cancelledRecord bk reason now)) ∧
    findBooking (cancelBookingOp db i reason now).2 i =
      some (cancelledRecord bk reason now) ∧
    (cancelBookingOp db i reason now).2.buses = db.buses := by
  have hst := canCancel_confirmed _ _ _ hcan
  have heq : cancelBookingOp db i reason now =
      (.cancelled 0, updateBooking db (cancelledRecord bk reason now)) := by
    unfold cancelBookingOp
    rw [hfind]
    dsimp only
    rw [if_neg (by simp [hst]), if_neg (by simp [hst]), hnobus,
      cancelMethod_result bk reason now none hcan]
    rfl
  refine ⟨heq, ?_, ?_⟩
  · rw [heq]
    exact findBooking_updateBooking db i bk _ hfind rfl
  · rw [heq]
    rfl

theorem cancel_missing_bus_spec_witness :
    findBooking (cancelBookingOp dbC10w 111 "gone" 0).2 111 =
      some (cancelledRecord bkC10w "gone" 0) ∧
    (cancelBookingOp dbC10w 111 "gone" 0).2.buses = dbC10w.buses :=
  ⟨(cancel_missing_bus_spec dbC10w 111 "gone" 0 bkC10w rfl rfl (by decide)).2.1,
   (cancel_missing_bus_spec dbC10w 111 "gone" 0 bkC10w rfl rfl (by decide)).2.2⟩

end GoBus
